import Mathlib

/-!
# LiquidMail backend — OAuth token lifecycle, shallow embedding

Embedding of the token-lifecycle core of `src/app/main.py`:
`save_tokens`, `get_valid_access_token`, `send_gmail`, and the Supabase
`gmail_tokens` table the first two operate on.

Modelling choices:
* Timestamps (`datetime` values) are `Int` seconds; `datetime.now(timezone.utc)`
  is an explicit `now : Int` parameter.
* A provider token payload (`res.json()` of the token endpoint) is a record of
  optional fields; `d["k"]` raising `KeyError` on a missing key is a `PyErr`
  error result, `d.get("k")` is the `Option` value, `d.get("k", v)` is `getD`.
* The Supabase table is a list of rows plus a monotone counter supplying the
  `created_at` ordering used by `.order("created_at", desc=True).limit(1)`.
* Outbound HTTP is a function parameter: the identity provider's token
  endpoint (`refresher`) maps the posted `refresh_token` field to the parsed
  JSON payload of its response, and the Gmail send endpoint maps the bearer
  token and the base64url body to an HTTP status and text.  Results carry the
  number of invocations of each endpoint so call-count claims are statable.
* `res.json()` of the send response is represented by the response text
  (the parse is a pure function of the body, irrelevant to every claim).
-/

namespace LiquidMail

/-- One row of the `gmail_tokens` table (a persisted TokenRecord). -/
structure TokenRecord where
  user_email : String
  access_token : String
  refresh_token : Option String
  token_type : String
  scope : Option String
  expires_at : Int
  created_at : Nat
deriving Repr, DecidableEq

/-- Parsed JSON payload of a token-endpoint response (`tokens` dict in the
source); every field optional, as in a Python dict. -/
structure TokenResponse where
  access_token : Option String
  refresh_token : Option String
  token_type : Option String
  scope : Option String
  expires_in : Option Int
deriving Repr, DecidableEq

/-- The `gmail_tokens` table: rows plus the counter that supplies the
strictly increasing `created_at` of each inserted row. -/
structure Store where
  rows : List TokenRecord
  counter : Nat
deriving Repr, DecidableEq

/-- Python-level failures surfaced by the embedded code: `KeyError` from a
`d["k"]` lookup, and FastAPI's `HTTPException(status, detail)`. -/
inductive PyErr where
  | keyError (key : String)
  | httpException (status : Nat) (detail : String)
deriving Repr, DecidableEq

/-- `save_tokens(user_id, tokens)` (main.py:61-72): computes
`expires_at = now + tokens["expires_in"]` and inserts a new row.
`tokens["expires_in"]` and `tokens["access_token"]` raise `KeyError` when
missing (in that evaluation order); the optional fields use `.get`. -/
def save_tokens (user_id : String) (tokens : TokenResponse) (now : Int)
    (db : Store) : Except PyErr Store :=
  match tokens.expires_in with
  | none => .error (.keyError "expires_in")
  | some ei =>
    match tokens.access_token with
    | none => .error (.keyError "access_token")
    | some tok =>
      .ok { rows := db.rows ++ [{
              user_email := user_id,
              access_token := tok,
              refresh_token := tokens.refresh_token,
              token_type := tokens.token_type.getD "Bearer",
              scope := tokens.scope,
              expires_at := now + ei,
              created_at := db.counter }],
            counter := db.counter + 1 }

/-- The Supabase query of main.py:76-83: rows with this `user_email`,
ordered by `created_at` descending, limited to one — i.e. the matching row
with the greatest `created_at`, if any. -/
def latestFor (db : Store) (user_email : String) : Option TokenRecord :=
  (db.rows.filter (fun r => r.user_email == user_email)).foldl
    (fun best r =>
      match best with
      | none => some r
      | some b => if b.created_at < r.created_at then some r else some b)
    none

/-- Result of `get_valid_access_token`: the returned value (or a propagated
exception), the store after the call, and how many times the identity
provider's token endpoint was invoked. -/
structure GvatOut where
  ret : Except PyErr (Option String)
  db : Store
  refreshCalls : Nat
deriving Repr

/-- `get_valid_access_token(user_email)` (main.py:74-110).
`refresher rt` is the parsed JSON of the POST to the token endpoint whose
`refresh_token` form field is `rt` (the record's, possibly absent). -/
def get_valid_access_token (refresher : Option String → TokenResponse)
    (now : Int) (db : Store) (user_email : String) : GvatOut :=
  match latestFor db user_email with
  | none => ⟨.ok none, db, 0⟩
  | some record =>
    if now < record.expires_at then
      ⟨.ok (some record.access_token), db, 0⟩
    else
      let new_tokens := refresher record.refresh_token
      match new_tokens.access_token with
      | none => ⟨.ok none, db, 1⟩
      | some tok =>
        match save_tokens user_email new_tokens now db with
        | .error e => ⟨.error e, db, 1⟩
        | .ok db2 => ⟨.ok (some tok), db2, 1⟩

/-- UTF-8 bytes of one character, as produced by `str.encode()`. -/
def utf8EncodeChar (c : Char) : List Nat :=
  let n := c.toNat
  if n < 128 then [n]
  else if n < 2048 then [192 + n / 64, 128 + n % 64]
  else if n < 65536 then [224 + n / 4096, 128 + (n / 64) % 64, 128 + n % 64]
  else [240 + n / 262144, 128 + (n / 4096) % 64, 128 + (n / 64) % 64,
        128 + n % 64]

/-- `raw.encode()`: UTF-8 bytes of the string, each byte a `Nat < 256`. -/
def utf8Encode (s : String) : List Nat :=
  (s.toList.map utf8EncodeChar).flatten

/-- URL-safe base64 alphabet (`base64.urlsafe_b64encode`). -/
def b64Alphabet : List Char :=
  ("ABCDEFGHIJKLMNOPQRSTUVWXYZabcdefghijklmnopqrstuvwxyz0123456789-_").toList

/-- Sextet to alphabet character. -/
def b64Char (n : Nat) : Char := b64Alphabet.getD n 'A'

/-- `base64.urlsafe_b64encode(bytes).decode()`: three bytes to four
characters, `=`-padded tail. -/
def b64urlEncode : List Nat → String
  | [] => ""
  | [b0] =>
    String.mk [b64Char (b0 / 4), b64Char ((b0 % 4) * 16)] ++ "=="
  | [b0, b1] =>
    String.mk [b64Char (b0 / 4), b64Char ((b0 % 4) * 16 + b1 / 16),
               b64Char ((b1 % 16) * 4)] ++ "="
  | b0 :: b1 :: b2 :: rest =>
    String.mk [b64Char (b0 / 4), b64Char ((b0 % 4) * 16 + b1 / 16),
               b64Char ((b1 % 16) * 4 + b2 / 64), b64Char (b2 % 64)] ++
    b64urlEncode rest

/-- The raw RFC-822-style message of main.py:119. -/
def rawMessage (to_addr subject body : String) : String :=
  "To: " ++ to_addr ++ "\r\nSubject: " ++ subject ++ "\r\n\r\n" ++ body

/-- HTTP response of the Gmail send endpoint: `status_code` and `text`. -/
structure HttpResponse where
  status_code : Nat
  text : String
deriving Repr, DecidableEq

/-- Result of `send_gmail`: returned value or raised exception, the store
after the call, and the invocation counts of the two outbound endpoints. -/
structure SendOutcome where
  result : Except PyErr String
  db : Store
  refreshCalls : Nat
  sendCalls : Nat
deriving Repr

/-- `send_gmail(user_email, to_addr, subject, body)` (main.py:112-131).
`sendEndpoint tok enc` is the response of the POST to the Gmail send URL
with bearer token `tok` and JSON body `{raw: enc}`.  `if not access_token`
is Python falsiness: it fires on `None` and on the empty string. -/
def send_gmail (refresher : Option String → TokenResponse)
    (sendEndpoint : String → String → HttpResponse)
    (now : Int) (db : Store)
    (user_email to_addr subject body : String) : SendOutcome :=
  let g := get_valid_access_token refresher now db user_email
  match g.ret with
  | .error e => ⟨.error e, g.db, g.refreshCalls, 0⟩
  | .ok none =>
    ⟨.error (.httpException 400 "No valid Gmail token found for this user"),
     g.db, g.refreshCalls, 0⟩
  | .ok (some tok) =>
    if tok = "" then
      ⟨.error (.httpException 400 "No valid Gmail token found for this user"),
       g.db, g.refreshCalls, 0⟩
    else
      let encoded := b64urlEncode (utf8Encode (rawMessage to_addr subject body))
      let res := sendEndpoint tok encoded
      if res.status_code = 200 ∨ res.status_code = 202 then
        ⟨.ok res.text, g.db, g.refreshCalls, 1⟩
      else
        ⟨.error (.httpException 500 res.text), g.db, g.refreshCalls, 1⟩

/-!
## Interleaving model for concurrent `get_valid_access_token` calls

Two HTTP handlers can run `get_valid_access_token` for the same subject at
once (main.py has no locking).  Each run decomposes into three atomic
actions against shared state — the Supabase SELECT (main.py:76-83), the
token-endpoint POST (main.py:95-104), and the `save_tokens` INSERT
(main.py:109) — with the pure checks folded into the action that follows
them, exactly as in `get_valid_access_token` above.  A schedule is a list
of booleans choosing which of two threads performs its next action.
-/

/-- Control point of one in-flight `get_valid_access_token` run. -/
inductive Phase where
  | ready
  | loaded (rec : Option TokenRecord)
  | refreshed (resp : TokenResponse)
  | finished (ret : Except PyErr (Option String))
deriving Repr

/-- One thread: its control point and its token-endpoint call count. -/
structure Thread where
  phase : Phase
  calls : Nat
deriving Repr

/-- One atomic action of a thread against the shared store, mirroring the
branches of `get_valid_access_token`. A finished thread does nothing. -/
def stepThread (refresher : Option String → TokenResponse) (now : Int)
    (user_email : String) (db : Store) (t : Thread) : Store × Thread :=
  match t.phase with
  | .ready => (db, ⟨.loaded (latestFor db user_email), t.calls⟩)
  | .loaded none => (db, ⟨.finished (.ok none), t.calls⟩)
  | .loaded (some record) =>
    if now < record.expires_at then
      (db, ⟨.finished (.ok (some record.access_token)), t.calls⟩)
    else
      (db, ⟨.refreshed (refresher record.refresh_token), t.calls + 1⟩)
  | .refreshed resp =>
    match resp.access_token with
    | none => (db, ⟨.finished (.ok none), t.calls⟩)
    | some tok =>
      match save_tokens user_email resp now db with
      | .error e => (db, ⟨.finished (.error e), t.calls⟩)
      | .ok db2 => (db2, ⟨.finished (.ok (some tok)), t.calls⟩)
  | .finished _ => (db, t)

/-- Run a schedule over two threads sharing the store: `false` steps thread
0, `true` steps thread 1. -/
def runSched (refresher : Option String → TokenResponse) (now : Int)
    (user_email : String) :
    List Bool → Store → Thread → Thread → Store × Thread × Thread
  | [], db, t0, t1 => (db, t0, t1)
  | false :: rest, db, t0, t1 =>
    let s := stepThread refresher now user_email db t0
    runSched refresher now user_email rest s.1 s.2 t1
  | true :: rest, db, t0, t1 =>
    let s := stepThread refresher now user_email db t1
    runSched refresher now user_email rest s.1 t0 s.2

/-- A solo thread (schedule touching only thread 0 three times) computes
exactly `get_valid_access_token`: same return, same store, same number of
token-endpoint calls.  This ties the interleaving model to the sequential
embedding. -/
theorem runSched_solo (refresher : Option String → TokenResponse)
    (now : Int) (ue : String) (db : Store) (t1 : Thread) :
    runSched refresher now ue [false, false, false] db ⟨.ready, 0⟩ t1 =
      (let g := get_valid_access_token refresher now db ue
       (g.db, ⟨.finished g.ret, g.refreshCalls⟩, t1)) := by
  simp only [runSched, stepThread, get_valid_access_token]
  cases h : latestFor db ue with
  | none => simp [stepThread]
  | some record =>
    simp only [stepThread]
    by_cases hexp : now < record.expires_at
    · simp [stepThread, hexp]
    · simp only [hexp, if_false]
      cases hat : (refresher record.refresh_token).access_token with
      | none => simp [stepThread, hat]
      | some tok =>
        cases hs : save_tokens ue (refresher record.refresh_token) now db with
        | error e => simp [stepThread, hat, hs]
        | ok db2 => simp [stepThread, hat, hs]

/-!
## Concrete fixtures

The scenario of spec §8: a stored record `{access_token:"A1",
refresh_token:"R1", expiry: now-10s}` for subject `"u@x"`, with `now = 0`,
and a refresher that answers `{access_token:"A2", expires_in:3600}` (no
`refresh_token`, as issuers commonly omit it on refresh).
-/

/-- Stored record: `A1`/`R1`, expired 10 seconds ago. -/
def rec1 : TokenRecord :=
  { user_email := "u@x", access_token := "A1", refresh_token := some "R1",
    token_type := "Bearer", scope := none, expires_at := -10, created_at := 0 }

/-- Store holding just `rec1`. -/
def db1 : Store := { rows := [rec1], counter := 1 }

/-- Refresh response `{access_token:"A2", expires_in:3600}`. -/
def resp2 : TokenResponse :=
  { access_token := some "A2", refresh_token := none, token_type := none,
    scope := none, expires_in := some 3600 }

/-- Refresher that always answers `resp2`. -/
def refresherOk : Option String → TokenResponse := fun _ => resp2

/-- Refresher whose response never carries `access_token` (a failed
refresh, e.g. the provider's error JSON). -/
def refresherFail : Option String → TokenResponse := fun _ =>
  { access_token := none, refresh_token := none, token_type := none,
    scope := none, expires_in := none }

/-- Refresh response carrying `access_token` but no `expires_in`. -/
def respNoExp : TokenResponse :=
  { access_token := some "A2", refresh_token := none, token_type := none,
    scope := none, expires_in := none }

/-- Refresher that always answers `respNoExp`. -/
def refresherNoExp : Option String → TokenResponse := fun _ => respNoExp

/-- Expired record with no refresh token. -/
def rec0 : TokenRecord :=
  { user_email := "u@x", access_token := "A1", refresh_token := none,
    token_type := "Bearer", scope := none, expires_at := -10, created_at := 0 }

/-- Store holding just `rec0`. -/
def db0 : Store := { rows := [rec0], counter := 1 }

/-- Record whose token is still valid at `now = 0`. -/
def recV : TokenRecord :=
  { user_email := "u@x", access_token := "T1", refresh_token := some "R1",
    token_type := "Bearer", scope := none, expires_at := 100, created_at := 0 }

/-- Store holding just `recV`. -/
def dbV : Store := { rows := [recV], counter := 1 }

/-- The empty store. -/
def dbE : Store := { rows := [], counter := 0 }

/-!
## Claims
-/

/-- Claim C9: for every subject with no stored record,
`get_valid_access_token` returns none (and, moreover, leaves the store
unchanged and never invokes the token endpoint). -/
theorem C9_no_record (refresher : Option String → TokenResponse) (now : Int)
    (db : Store) (e : String) (h : latestFor db e = none) :
    get_valid_access_token refresher now db e = ⟨.ok none, db, 0⟩ := by
  simp [get_valid_access_token, h]

/-- Witness for C9 on the empty store. -/
theorem C9_no_record_witness :
    latestFor dbE "nobody@x" = none ∧
    get_valid_access_token refresherOk 0 dbE "nobody@x" = ⟨.ok none, dbE, 0⟩ :=
  ⟨rfl, C9_no_record refresherOk 0 dbE "nobody@x" rfl⟩

/-- Claim C4: for every subject whose authoritative stored record has
`expiry > now`, `get_valid_access_token` returns that record's stored
access token, makes no refresher call, and leaves the store unchanged. -/
theorem C4_fast_path (refresher : Option String → TokenResponse) (now : Int)
    (db : Store) (e : String) (r : TokenRecord)
    (h : latestFor db e = some r) (hv : now < r.expires_at) :
    get_valid_access_token refresher now db e =
      ⟨.ok (some r.access_token), db, 0⟩ := by
  simp [get_valid_access_token, h, hv]

/-- Witness for C4 on a record valid for another 100 seconds. -/
theorem C4_fast_path_witness :
    latestFor dbV "u@x" = some recV ∧ (0 : Int) < recV.expires_at ∧
    get_valid_access_token refresherFail 0 dbV "u@x" =
      ⟨.ok (some "T1"), dbV, 0⟩ :=
  ⟨rfl, by decide, C4_fast_path refresherFail 0 dbV "u@x" recV rfl (by decide)⟩

/-- Counterexample to claim C2: `save_tokens` stores
`expiry = now + expires_in` with no safety margin subtracted — for
`now = 0`, `expires_in = 3600` the persisted expiry is `3600`, which is
neither `0 + 3600 − 60` nor strictly earlier than the issuer-reported
expiry `0 + 3600`. -/
theorem C2_no_margin_counterexample :
    save_tokens "u@x" resp2 0 dbE =
      .ok ⟨[⟨"u@x", "A2", none, "Bearer", none, 3600, 0⟩], 1⟩ ∧
    ¬ ((3600 : Int) = 0 + 3600 - 60) ∧ ¬ ((3600 : Int) < 0 + 3600) :=
  ⟨rfl, by decide, by decide⟩

/-- Claim C2 as amended: for every call to `save_tokens` whose payload
contains `expires_in` (and the required `access_token`), the persisted
record's expiry equals `now + expires_in` exactly — no safety margin is
subtracted, so the stored expiry coincides with the issuer-reported
expiry rather than preceding it. -/
theorem C2_expiry_no_margin (user : String) (tokens : TokenResponse)
    (now : Int) (db : Store) (tok : String) (ei : Int)
    (hei : tokens.expires_in = some ei) (hat : tokens.access_token = some tok) :
    save_tokens user tokens now db =
      .ok { rows := db.rows ++ [{
              user_email := user,
              access_token := tok,
              refresh_token := tokens.refresh_token,
              token_type := tokens.token_type.getD "Bearer",
              scope := tokens.scope,
              expires_at := now + ei,
              created_at := db.counter }],
            counter := db.counter + 1 } := by
  simp [save_tokens, hei, hat]

/-- Witness for the amended C2 at `resp2` on the empty store. -/
theorem C2_expiry_no_margin_witness :
    resp2.expires_in = some 3600 ∧ resp2.access_token = some "A2" ∧
    save_tokens "w@x" resp2 5 dbE =
      .ok { rows := dbE.rows ++ [{
              user_email := "w@x",
              access_token := "A2",
              refresh_token := resp2.refresh_token,
              token_type := resp2.token_type.getD "Bearer",
              scope := resp2.scope,
              expires_at := 5 + 3600,
              created_at := dbE.counter }],
            counter := dbE.counter + 1 } :=
  ⟨rfl, rfl, C2_expiry_no_margin "w@x" resp2 5 dbE "A2" 3600 rfl rfl⟩

/-- Claim C1 fails on the code: with stored record
`{access_token:"A1", refresh_token:"R1", expiry: now−10}` and a refresh
response `{access_token:"A2", expires_in:3600}` that omits
`refresh_token`, the refresh succeeds and returns `"A2"`, but the newly
persisted (now authoritative) record's `refresh_token` is null — the
previous `"R1"` is not carried forward, so the subject can never be
refreshed again. -/
theorem C1_refresh_token_lost :
    (get_valid_access_token refresherOk 0 db1 "u@x").ret = .ok (some "A2") ∧
    ((get_valid_access_token refresherOk 0 db1 "u@x").db.rows.map
      (·.refresh_token)) = [some "R1", none] ∧
    (latestFor (get_valid_access_token refresherOk 0 db1 "u@x").db "u@x").map
      (·.refresh_token) = some none :=
  ⟨rfl, rfl, rfl⟩

/-- Counterexample to claim C3: for a stored record with `expiry <= now`
and no refresh token, the token endpoint IS invoked (once, with the absent
refresh token) — `get_valid_access_token` has no short-circuit for a
missing refresh token, so the claim's "refresher is never invoked" part
fails even though none is returned. -/
theorem C3_refresher_invoked :
    rec0.refresh_token = none ∧ ¬ ((0 : Int) < rec0.expires_at) ∧
    get_valid_access_token refresherFail 0 db0 "u@x" = ⟨.ok none, db0, 1⟩ ∧
    ¬ ((get_valid_access_token refresherFail 0 db0 "u@x").refreshCalls = 0) :=
  ⟨rfl, by decide, rfl, by decide⟩

/-- Claim C3 as amended: for a stored record with `expiry <= now` and no
refresh token, `get_valid_access_token` still posts to the token endpoint
once (with the absent refresh token); provided that response carries no
`access_token` — as the identity provider guarantees for a missing
refresh token — the call returns none and leaves the store unchanged. -/
theorem C3_expired_no_refresh (refresher : Option String → TokenResponse)
    (now : Int) (db : Store) (e : String) (r : TokenRecord)
    (h : latestFor db e = some r) (hexp : ¬ now < r.expires_at)
    (hrt : r.refresh_token = none)
    (hfail : (refresher none).access_token = none) :
    get_valid_access_token refresher now db e = ⟨.ok none, db, 1⟩ := by
  simp [get_valid_access_token, h, hexp, hrt, hfail]

/-- Witness for the amended C3 on `db0`. -/
theorem C3_expired_no_refresh_witness :
    latestFor db0 "u@x" = some rec0 ∧ ¬ ((0 : Int) < rec0.expires_at) ∧
    rec0.refresh_token = none ∧ (refresherFail none).access_token = none ∧
    get_valid_access_token refresherFail 0 db0 "u@x" = ⟨.ok none, db0, 1⟩ :=
  ⟨rfl, by decide, rfl, rfl,
   C3_expired_no_refresh refresherFail 0 db0 "u@x" rec0 rfl (by decide) rfl rfl⟩

/-- Counterexample to claim C5: a refresh response that contains
`access_token` but omits `expires_in` makes `save_tokens` raise
`KeyError("expires_in")`, so `get_valid_access_token` neither persists a
record nor returns the new access token — it propagates the exception and
the store is unchanged. -/
theorem C5_missing_expires_in :
    respNoExp.access_token = some "A2" ∧
    get_valid_access_token refresherNoExp 0 db1 "u@x" =
      ⟨.error (.keyError "expires_in"), db1, 1⟩ :=
  ⟨rfl, rfl⟩

/-- Claim C5 as amended: for a subject whose authoritative record is
expired, if the refresh response contains `access_token` and `expires_in`,
then `get_valid_access_token` persists a new record via `save_tokens` for
that subject and returns the new access token from the response. -/
theorem C5_refresh_success (refresher : Option String → TokenResponse)
    (now : Int) (db : Store) (e : String) (r : TokenRecord)
    (tok : String) (ei : Int)
    (h : latestFor db e = some r) (hexp : ¬ now < r.expires_at)
    (hat : (refresher r.refresh_token).access_token = some tok)
    (hei : (refresher r.refresh_token).expires_in = some ei) :
    ∃ db2, save_tokens e (refresher r.refresh_token) now db = .ok db2 ∧
      get_valid_access_token refresher now db e = ⟨.ok (some tok), db2, 1⟩ := by
  have hs : save_tokens e (refresher r.refresh_token) now db =
      .ok { rows := db.rows ++ [{
              user_email := e,
              access_token := tok,
              refresh_token := (refresher r.refresh_token).refresh_token,
              token_type := (refresher r.refresh_token).token_type.getD "Bearer",
              scope := (refresher r.refresh_token).scope,
              expires_at := now + ei,
              created_at := db.counter }],
            counter := db.counter + 1 } := by
    simp [save_tokens, hei, hat]
  exact ⟨_, hs, by simp [get_valid_access_token, h, hexp, hat, hs]⟩

/-- Witness for the amended C5: the spec §8 end-to-end scenario. -/
theorem C5_refresh_success_witness :
    latestFor db1 "u@x" = some rec1 ∧ ¬ ((0 : Int) < rec1.expires_at) ∧
    (refresherOk rec1.refresh_token).access_token = some "A2" ∧
    (refresherOk rec1.refresh_token).expires_in = some 3600 ∧
    (∃ db2, save_tokens "u@x" (refresherOk rec1.refresh_token) 0 db1 = .ok db2 ∧
      get_valid_access_token refresherOk 0 db1 "u@x" = ⟨.ok (some "A2"), db2, 1⟩) :=
  ⟨rfl, by decide, rfl, rfl,
   C5_refresh_success refresherOk 0 db1 "u@x" rec1 "A2" 3600 rfl (by decide) rfl rfl⟩

/-- Claim C7: when the refresh response lacks `access_token` (the
provider's error payload on HTTP failure, or a malformed payload),
`get_valid_access_token` returns none without raising and the store is
left unchanged — no new record is written. -/
theorem C7_failed_refresh (refresher : Option String → TokenResponse)
    (now : Int) (db : Store) (e : String) (r : TokenRecord)
    (h : latestFor db e = some r) (hexp : ¬ now < r.expires_at)
    (hfail : (refresher r.refresh_token).access_token = none) :
    get_valid_access_token refresher now db e = ⟨.ok none, db, 1⟩ := by
  simp [get_valid_access_token, h, hexp, hfail]

/-- Witness for C7: failed refresh of the expired `rec1`. -/
theorem C7_failed_refresh_witness :
    latestFor db1 "u@x" = some rec1 ∧ ¬ ((0 : Int) < rec1.expires_at) ∧
    (refresherFail rec1.refresh_token).access_token = none ∧
    get_valid_access_token refresherFail 0 db1 "u@x" = ⟨.ok none, db1, 1⟩ :=
  ⟨rfl, by decide, rfl,
   C7_failed_refresh refresherFail 0 db1 "u@x" rec1 rfl (by decide) rfl⟩

/-- Claim C6: when `get_valid_access_token` returns none, `send_gmail`
raises `HTTPException(400, "No valid Gmail token found for this user")`
(the caller-facing credential-missing failure) and makes zero calls to the
mail provider's send endpoint. -/
theorem C6_credential_missing (refresher : Option String → TokenResponse)
    (sendEndpoint : String → String → HttpResponse)
    (now : Int) (db : Store) (e to_addr subject body : String)
    (h : (get_valid_access_token refresher now db e).ret = .ok none) :
    (send_gmail refresher sendEndpoint now db e to_addr subject body).result =
      .error (.httpException 400 "No valid Gmail token found for this user") ∧
    (send_gmail refresher sendEndpoint now db e to_addr subject body).sendCalls
      = 0 := by
  constructor <;> simp [send_gmail, h]

/-- Witness for C6: send attempt for a subject with no record. -/
theorem C6_credential_missing_witness :
    (get_valid_access_token refresherOk 0 dbE "nobody@x").ret = .ok none ∧
    (send_gmail refresherOk (fun _ _ => ⟨200, "id"⟩) 0 dbE "nobody@x"
        "to@x" "hi" "body").result =
      .error (.httpException 400 "No valid Gmail token found for this user") ∧
    (send_gmail refresherOk (fun _ _ => ⟨200, "id"⟩) 0 dbE "nobody@x"
        "to@x" "hi" "body").sendCalls = 0 :=
  ⟨rfl, C6_credential_missing refresherOk (fun _ _ => ⟨200, "id"⟩) 0 dbE
    "nobody@x" "to@x" "hi" "body" rfl⟩

/-- Claim C8: with a valid (non-empty) access token in hand, `send_gmail`
makes exactly one call to the send endpoint; a success status (200 or 202,
the statuses the dispatcher accepts) yields the provider's response, and
any other status raises `HTTPException(500, ·)` carrying the provider's
response body verbatim — still after that single attempt, with no retry. -/
theorem C8_single_dispatch (refresher : Option String → TokenResponse)
    (sendEndpoint : String → String → HttpResponse)
    (now : Int) (db : Store) (e to_addr subject body tok : String)
    (res : HttpResponse)
    (h : (get_valid_access_token refresher now db e).ret = .ok (some tok))
    (hne : ¬ tok = "")
    (hres : sendEndpoint tok
      (b64urlEncode (utf8Encode (rawMessage to_addr subject body))) = res) :
    (send_gmail refresher sendEndpoint now db e to_addr subject body).sendCalls
      = 1 ∧
    (res.status_code = 200 ∨ res.status_code = 202 →
      (send_gmail refresher sendEndpoint now db e to_addr subject body).result
        = .ok res.text) ∧
    (¬ (res.status_code = 200 ∨ res.status_code = 202) →
      (send_gmail refresher sendEndpoint now db e to_addr subject body).result
        = .error (.httpException 500 res.text)) := by
  by_cases hst : res.status_code = 200 ∨ res.status_code = 202
  · have hsend : send_gmail refresher sendEndpoint now db e to_addr subject body =
        ⟨.ok res.text, (get_valid_access_token refresher now db e).db,
         (get_valid_access_token refresher now db e).refreshCalls, 1⟩ := by
      simp [send_gmail, h, hne, hres, hst]
    exact ⟨by simp [hsend], fun _ => by simp [hsend],
           fun hcon => absurd hst hcon⟩
  · have hsend : send_gmail refresher sendEndpoint now db e to_addr subject body =
        ⟨.error (.httpException 500 res.text),
         (get_valid_access_token refresher now db e).db,
         (get_valid_access_token refresher now db e).refreshCalls, 1⟩ := by
      simp [send_gmail, h, hne, hres, hst]
    exact ⟨by simp [hsend], fun h2 => absurd h2 hst,
           fun _ => by simp [hsend]⟩

/-- Witness for C8: valid token, provider rejects with status 500 and body
`"quota"`; the dispatch fails with that body after one attempt. -/
theorem C8_single_dispatch_witness :
    (get_valid_access_token refresherFail 0 dbV "u@x").ret = .ok (some "T1") ∧
    ¬ ("T1" = "") ∧
    ((send_gmail refresherFail (fun _ _ => ⟨500, "quota"⟩) 0 dbV "u@x"
        "to@x" "hi" "body").sendCalls = 1 ∧
     ((500 : Nat) = 200 ∨ (500 : Nat) = 202 →
       (send_gmail refresherFail (fun _ _ => ⟨500, "quota"⟩) 0 dbV "u@x"
          "to@x" "hi" "body").result = .ok "quota") ∧
     (¬ ((500 : Nat) = 200 ∨ (500 : Nat) = 202) →
       (send_gmail refresherFail (fun _ _ => ⟨500, "quota"⟩) 0 dbV "u@x"
          "to@x" "hi" "body").result = .error (.httpException 500 "quota"))) :=
  ⟨rfl, by decide,
   C8_single_dispatch refresherFail (fun _ _ => ⟨500, "quota"⟩) 0 dbV "u@x"
     "to@x" "hi" "body" "T1" ⟨500, "quota"⟩ rfl (by decide) rfl⟩

/-- The racing schedule: both threads load the expired record before
either refreshes and saves. -/
def sched2 : List Bool := [false, true, false, true, false, true]

/-- Claim C10 fails on the code: two concurrent `get_valid_access_token`
runs for the same subject whose record is expired can both invoke the
token endpoint (two refresher invocations, not at most one) and both
insert a new row — `get_valid_access_token` holds no per-subject lock
across its lookup-refresh-persist sequence. -/
theorem C10_concurrent_double_refresh :
    (runSched refresherOk 0 "u@x" sched2 db1 ⟨.ready, 0⟩ ⟨.ready, 0⟩).2.1.calls
      + (runSched refresherOk 0 "u@x" sched2 db1 ⟨.ready, 0⟩ ⟨.ready, 0⟩).2.2.calls
      = 2 ∧
    ¬ ((runSched refresherOk 0 "u@x" sched2 db1 ⟨.ready, 0⟩ ⟨.ready, 0⟩).2.1.calls
      + (runSched refresherOk 0 "u@x" sched2 db1 ⟨.ready, 0⟩ ⟨.ready, 0⟩).2.2.calls
      ≤ 1) ∧
    (runSched refresherOk 0 "u@x" sched2 db1 ⟨.ready, 0⟩ ⟨.ready, 0⟩).1.rows.length
      = 3 :=
  ⟨rfl, by decide, rfl⟩

end LiquidMail
